import Mathlib

/-!
Shallow embedding of `src/platform_impl/macos/event.rs` (winit, macOS backend):
the scancode table, the bidirectional character tables, the function-key
decoder and the modifier transition detector, together with theorems about
them.

Rust `match` expressions over integer / character literals are embedded as
ordered first-match lookups over explicit association lists (`List.find?`),
which preserves the source's first-arm-wins semantics and keeps the tables
inspectable.  Machine integers (`u16` scancodes, UTF-16 code units) are
embedded as `Nat`.
-/

/-- The virtual key identities (`VirtualKeyCode`) that occur in
`src/platform_impl/macos/event.rs`.  winit's full enum has further variants;
none of them appears in any arm of the tables in this file, so they all fall
into the wildcard `None` arms and are irrelevant to the properties proved
here. -/
inductive VirtualKeyCode where
  | A | B | C | D | E | F | G | H | I | J | K | L | M
  | N | O | P | Q | R | S | T | U | V | W | X | Y | Z
  | Key1 | Key2 | Key3 | Key4 | Key5 | Key6 | Key7 | Key8 | Key9 | Key0
  | Equals | Minus | RBracket | LBracket | Apostrophe | Semicolon
  | Backslash | Comma | Slash | Period | Grave
  | Return | Tab | Space | Back | Escape
  | RWin | LWin | LShift | LAlt | LControl | RShift | RAlt | RControl
  | F1 | F2 | F3 | F4 | F5 | F6 | F7 | F8 | F9 | F10 | F11 | F12
  | F13 | F14 | F15 | F16 | F17 | F18 | F19 | F20 | F21 | F22 | F23 | F24
  | Decimal | Multiply | Add | Numlock | VolumeUp | VolumeDown | Divide
  | NumpadEnter | Subtract | NumpadEquals
  | Numpad0 | Numpad1 | Numpad2 | Numpad3 | Numpad4
  | Numpad5 | Numpad6 | Numpad7 | Numpad8 | Numpad9
  | Yen | Caret
  | Insert | Home | PageUp | Delete | End | PageDown
  | Left | Right | Down | Up
deriving DecidableEq, Fintype, Repr

/-- winit's `ModifiersState` bitmask: four independent flags
SHIFT, CTRL, ALT, LOGO. -/
structure ModifiersState where
  shift : Bool
  ctrl : Bool
  alt : Bool
  logo : Bool
deriving DecidableEq, Fintype, Repr

def ModifiersState.empty : ModifiersState := ⟨false, false, false, false⟩

def ModifiersState.SHIFT : ModifiersState := ⟨true, false, false, false⟩

def ModifiersState.CTRL : ModifiersState := ⟨false, true, false, false⟩

def ModifiersState.ALT : ModifiersState := ⟨false, false, true, false⟩

def ModifiersState.LOGO : ModifiersState := ⟨false, false, false, true⟩

/-- Bitmask containment (`bitflags`' `contains`): every bit set in `f` is set
in `m`. -/
def ModifiersState.contains (m f : ModifiersState) : Bool :=
  (!f.shift || m.shift) && (!f.ctrl || m.ctrl) &&
  (!f.alt || m.alt) && (!f.logo || m.logo)

/-- Bitwise union of two masks (`bitflags`' `insert`). -/
def ModifiersState.insert (m f : ModifiersState) : ModifiersState :=
  ⟨m.shift || f.shift, m.ctrl || f.ctrl, m.alt || f.alt, m.logo || f.logo⟩

/-- Bitwise removal of a mask (`bitflags`' `remove`). -/
def ModifiersState.remove (m f : ModifiersState) : ModifiersState :=
  ⟨m.shift && !f.shift, m.ctrl && !f.ctrl, m.alt && !f.alt, m.logo && !f.logo⟩

/-- `bitflags`' `set`: insert the mask when `value` is true, remove it
otherwise. -/
def ModifiersState.set (m f : ModifiersState) (value : Bool) : ModifiersState :=
  if value then m.insert f else m.remove f

/-- The character table of `char_to_keycode`, one entry per match arm in
source order: (unshifted glyph, shifted glyph, virtual key). -/
def charTable : List (Char × Char × VirtualKeyCode) :=
  [ ('a', 'A', VirtualKeyCode.A), ('b', 'B', VirtualKeyCode.B), ('c', 'C', VirtualKeyCode.C), ('d', 'D', VirtualKeyCode.D),
    ('e', 'E', VirtualKeyCode.E), ('f', 'F', VirtualKeyCode.F), ('g', 'G', VirtualKeyCode.G), ('h', 'H', VirtualKeyCode.H),
    ('i', 'I', VirtualKeyCode.I), ('j', 'J', VirtualKeyCode.J), ('k', 'K', VirtualKeyCode.K), ('l', 'L', VirtualKeyCode.L),
    ('m', 'M', VirtualKeyCode.M), ('n', 'N', VirtualKeyCode.N), ('o', 'O', VirtualKeyCode.O), ('p', 'P', VirtualKeyCode.P),
    ('q', 'Q', VirtualKeyCode.Q), ('r', 'R', VirtualKeyCode.R), ('s', 'S', VirtualKeyCode.S), ('t', 'T', VirtualKeyCode.T),
    ('u', 'U', VirtualKeyCode.U), ('v', 'V', VirtualKeyCode.V), ('w', 'W', VirtualKeyCode.W), ('x', 'X', VirtualKeyCode.X),
    ('y', 'Y', VirtualKeyCode.Y), ('z', 'Z', VirtualKeyCode.Z),
    ('1', '!', VirtualKeyCode.Key1), ('2', '@', VirtualKeyCode.Key2), ('3', '#', VirtualKeyCode.Key3),
    ('4', '$', VirtualKeyCode.Key4), ('5', '%', VirtualKeyCode.Key5), ('6', '^', VirtualKeyCode.Key6),
    ('7', '&', VirtualKeyCode.Key7), ('8', '*', VirtualKeyCode.Key8), ('9', '(', VirtualKeyCode.Key9),
    ('0', ')', VirtualKeyCode.Key0),
    ('=', '+', VirtualKeyCode.Equals), ('-', '_', VirtualKeyCode.Minus),
    (']', Char.ofNat 0x7d, VirtualKeyCode.RBracket), ('[', Char.ofNat 0x7b, VirtualKeyCode.LBracket),
    (Char.ofNat 0x27, Char.ofNat 0x22, VirtualKeyCode.Apostrophe), (';', ':', VirtualKeyCode.Semicolon),
    ('\\', '|', VirtualKeyCode.Backslash), (',', '<', VirtualKeyCode.Comma), ('/', '?', VirtualKeyCode.Slash),
    ('.', '>', VirtualKeyCode.Period), (Char.ofNat 0x60, '~', VirtualKeyCode.Grave) ]

/-- `char_to_keycode`: first match arm whose (unshifted or shifted) glyph is
`c` wins; no arm means `None`. -/
def char_to_keycode (c : Char) : Option VirtualKeyCode :=
  (charTable.find? (fun e => c == e.1 || c == e.2.1)).map (fun e => e.2.2)

/-- `keycode_to_char`: reverse translation, matching on the pair
(keycode, `modifiers_state.contains(SHIFT)`) exactly as the source does. -/
def keycode_to_char (keycode : VirtualKeyCode) (modifiers_state : ModifiersState) :
    Option Char :=
  match keycode, modifiers_state.contains ModifiersState.SHIFT with
  | .A, false => some 'a'
  | .A, true => some 'A'
  | .B, false => some 'b'
  | .B, true => some 'B'
  | .C, false => some 'c'
  | .C, true => some 'C'
  | .D, false => some 'd'
  | .D, true => some 'D'
  | .E, false => some 'e'
  | .E, true => some 'E'
  | .F, false => some 'f'
  | .F, true => some 'F'
  | .G, false => some 'g'
  | .G, true => some 'G'
  | .H, false => some 'h'
  | .H, true => some 'H'
  | .I, false => some 'i'
  | .I, true => some 'I'
  | .J, false => some 'j'
  | .J, true => some 'J'
  | .K, false => some 'k'
  | .K, true => some 'K'
  | .L, false => some 'l'
  | .L, true => some 'L'
  | .M, false => some 'm'
  | .M, true => some 'M'
  | .N, false => some 'n'
  | .N, true => some 'N'
  | .O, false => some 'o'
  | .O, true => some 'O'
  | .P, false => some 'p'
  | .P, true => some 'P'
  | .Q, false => some 'q'
  | .Q, true => some 'Q'
  | .R, false => some 'r'
  | .R, true => some 'R'
  | .S, false => some 's'
  | .S, true => some 'S'
  | .T, false => some 't'
  | .T, true => some 'T'
  | .U, false => some 'u'
  | .U, true => some 'U'
  | .V, false => some 'v'
  | .V, true => some 'V'
  | .W, false => some 'w'
  | .W, true => some 'W'
  | .X, false => some 'x'
  | .X, true => some 'X'
  | .Y, false => some 'y'
  | .Y, true => some 'Y'
  | .Z, false => some 'z'
  | .Z, true => some 'Z'
  | .Key1, false => some '1'
  | .Key1, true => some '!'
  | .Key2, false => some '2'
  | .Key2, true => some '@'
  | .Key3, false => some '3'
  | .Key3, true => some '#'
  | .Key4, false => some '4'
  | .Key4, true => some '$'
  | .Key5, false => some '5'
  | .Key5, true => some '%'
  | .Key6, false => some '6'
  | .Key6, true => some '^'
  | .Key7, false => some '7'
  | .Key7, true => some '&'
  | .Key8, false => some '8'
  | .Key8, true => some '*'
  | .Key9, false => some '9'
  | .Key9, true => some '('
  | .Key0, false => some '0'
  | .Key0, true => some ')'
  | .Equals, false => some '='
  | .Equals, true => some '+'
  | .Minus, false => some '-'
  | .Minus, true => some '_'
  | .RBracket, false => some ']'
  | .RBracket, true => some (Char.ofNat 0x7d)
  | .LBracket, false => some '['
  | .LBracket, true => some (Char.ofNat 0x7b)
  | .Apostrophe, false => some (Char.ofNat 0x27)
  | .Apostrophe, true => some (Char.ofNat 0x22)
  | .Semicolon, false => some ';'
  | .Semicolon, true => some ':'
  | .Backslash, false => some '\\'
  | .Backslash, true => some '|'
  | .Comma, false => some ','
  | .Comma, true => some '<'
  | .Slash, false => some '/'
  | .Slash, true => some '?'
  | .Period, false => some '.'
  | .Period, true => some '>'
  | .Grave, false => some (Char.ofNat 0x60)
  | .Grave, true => some '~'
  | _, _ => none

/-- The scancode table of `scancode_to_keycode`, one entry per match arm in
source order; commented-out arms of the source (0x0a in the letter block,
0x34, 0x39, 0x3f, ...) have no entry here either.  The arm `0xa => Caret`
appears at the end, exactly as in the source. -/
def scancodeTable : List (Nat × VirtualKeyCode) :=
  [ (0x00, VirtualKeyCode.A), (0x01, VirtualKeyCode.S), (0x02, VirtualKeyCode.D), (0x03, VirtualKeyCode.F), (0x04, VirtualKeyCode.H), (0x05, VirtualKeyCode.G),
    (0x06, VirtualKeyCode.Z), (0x07, VirtualKeyCode.X), (0x08, VirtualKeyCode.C), (0x09, VirtualKeyCode.V),
    (0x0b, VirtualKeyCode.B), (0x0c, VirtualKeyCode.Q), (0x0d, VirtualKeyCode.W), (0x0e, VirtualKeyCode.E), (0x0f, VirtualKeyCode.R),
    (0x10, VirtualKeyCode.Y), (0x11, VirtualKeyCode.T), (0x12, VirtualKeyCode.Key1), (0x13, VirtualKeyCode.Key2), (0x14, VirtualKeyCode.Key3),
    (0x15, VirtualKeyCode.Key4), (0x16, VirtualKeyCode.Key6), (0x17, VirtualKeyCode.Key5), (0x18, VirtualKeyCode.Equals),
    (0x19, VirtualKeyCode.Key9), (0x1a, VirtualKeyCode.Key7), (0x1b, VirtualKeyCode.Minus), (0x1c, VirtualKeyCode.Key8),
    (0x1d, VirtualKeyCode.Key0), (0x1e, VirtualKeyCode.RBracket), (0x1f, VirtualKeyCode.O),
    (0x20, VirtualKeyCode.U), (0x21, VirtualKeyCode.LBracket), (0x22, VirtualKeyCode.I), (0x23, VirtualKeyCode.P), (0x24, VirtualKeyCode.Return),
    (0x25, VirtualKeyCode.L), (0x26, VirtualKeyCode.J), (0x27, VirtualKeyCode.Apostrophe), (0x28, VirtualKeyCode.K),
    (0x29, VirtualKeyCode.Semicolon), (0x2a, VirtualKeyCode.Backslash), (0x2b, VirtualKeyCode.Comma), (0x2c, VirtualKeyCode.Slash),
    (0x2d, VirtualKeyCode.N), (0x2e, VirtualKeyCode.M), (0x2f, VirtualKeyCode.Period),
    (0x30, VirtualKeyCode.Tab), (0x31, VirtualKeyCode.Space), (0x32, VirtualKeyCode.Grave), (0x33, VirtualKeyCode.Back),
    (0x35, VirtualKeyCode.Escape), (0x36, VirtualKeyCode.RWin), (0x37, VirtualKeyCode.LWin), (0x38, VirtualKeyCode.LShift),
    (0x3a, VirtualKeyCode.LAlt), (0x3b, VirtualKeyCode.LControl), (0x3c, VirtualKeyCode.RShift), (0x3d, VirtualKeyCode.RAlt),
    (0x3e, VirtualKeyCode.RControl),
    (0x40, VirtualKeyCode.F17), (0x41, VirtualKeyCode.Decimal), (0x43, VirtualKeyCode.Multiply), (0x45, VirtualKeyCode.Add),
    (0x47, VirtualKeyCode.Numlock), (0x49, VirtualKeyCode.VolumeUp), (0x4a, VirtualKeyCode.VolumeDown),
    (0x4b, VirtualKeyCode.Divide), (0x4c, VirtualKeyCode.NumpadEnter), (0x4e, VirtualKeyCode.Subtract),
    (0x4f, VirtualKeyCode.F18),
    (0x50, VirtualKeyCode.F19), (0x51, VirtualKeyCode.NumpadEquals), (0x52, VirtualKeyCode.Numpad0), (0x53, VirtualKeyCode.Numpad1),
    (0x54, VirtualKeyCode.Numpad2), (0x55, VirtualKeyCode.Numpad3), (0x56, VirtualKeyCode.Numpad4), (0x57, VirtualKeyCode.Numpad5),
    (0x58, VirtualKeyCode.Numpad6), (0x59, VirtualKeyCode.Numpad7), (0x5a, VirtualKeyCode.F20), (0x5b, VirtualKeyCode.Numpad8),
    (0x5c, VirtualKeyCode.Numpad9), (0x5d, VirtualKeyCode.Yen),
    (0x60, VirtualKeyCode.F5), (0x61, VirtualKeyCode.F6), (0x62, VirtualKeyCode.F7), (0x63, VirtualKeyCode.F3), (0x64, VirtualKeyCode.F8),
    (0x65, VirtualKeyCode.F9), (0x67, VirtualKeyCode.F11), (0x69, VirtualKeyCode.F13), (0x6a, VirtualKeyCode.F16), (0x6b, VirtualKeyCode.F14),
    (0x6d, VirtualKeyCode.F10), (0x6f, VirtualKeyCode.F12),
    (0x71, VirtualKeyCode.F15), (0x72, VirtualKeyCode.Insert), (0x73, VirtualKeyCode.Home), (0x74, VirtualKeyCode.PageUp),
    (0x75, VirtualKeyCode.Delete), (0x76, VirtualKeyCode.F4), (0x77, VirtualKeyCode.End), (0x78, VirtualKeyCode.F2),
    (0x79, VirtualKeyCode.PageDown), (0x7a, VirtualKeyCode.F1), (0x7b, VirtualKeyCode.Left), (0x7c, VirtualKeyCode.Right),
    (0x7d, VirtualKeyCode.Down), (0x7e, VirtualKeyCode.Up),
    (0xa, VirtualKeyCode.Caret) ]

/-- `scancode_to_keycode`: first-match lookup in the scancode table;
everything else is `None`.  The `c_ushort` argument is embedded as `Nat`. -/
def scancode_to_keycode (scancode : Nat) : Option VirtualKeyCode :=
  (scancodeTable.find? (fun e => e.1 == scancode)).map (fun e => e.2)

/-- The scancodes for which `scancode_to_keycode` has an arm. -/
def knownScancodes : List Nat := scancodeTable.map Prod.fst

/-- UTF-16 encoding of a single Unicode scalar value, as a list of code
units: one unit below 0x10000, a surrogate pair above. -/
def charUtf16units (c : Char) : List Nat :=
  let n := c.toNat
  if n < 0x10000 then [n]
  else [0xd800 + (n - 0x10000) / 0x400, 0xdc00 + (n - 0x10000) % 0x400]

/-- `str::encode_utf16`: the UTF-16 code units of a string. -/
def encode_utf16 (s : String) : List Nat :=
  s.data.flatMap charUtf16units

/-- The four private-use code points `check_function_keys` matches on, in
source order. -/
def functionKeyTable : List (Nat × VirtualKeyCode) :=
  [ (0xf718, VirtualKeyCode.F21), (0xf719, VirtualKeyCode.F22), (0xf71a, VirtualKeyCode.F23), (0xf71b, VirtualKeyCode.F24) ]

/-- `check_function_keys`: look at the first UTF-16 code unit of the string,
if any, and match it against the four extended-function-key code points. -/
def check_function_keys (string : String) : Option VirtualKeyCode :=
  match (encode_utf16 string).head? with
  | some ch => (functionKeyTable.find? (fun e => e.1 == ch)).map (fun e => e.2)
  | none => none

/-- macOS `NSEventModifierFlags`, restricted to the four device-independent
key masks this file reads (`NSShiftKeyMask`, `NSControlKeyMask`,
`NSAlternateKeyMask`, `NSCommandKeyMask`); the remaining AppKit mask bits are
never inspected by the embedded code, so they are omitted. -/
structure NSEventModifierFlags where
  shiftKey : Bool
  controlKey : Bool
  alternateKey : Bool
  commandKey : Bool
deriving DecidableEq, Repr

def NSEventModifierFlags.NSShiftKeyMask : NSEventModifierFlags :=
  ⟨true, false, false, false⟩

def NSEventModifierFlags.NSControlKeyMask : NSEventModifierFlags :=
  ⟨false, true, false, false⟩

def NSEventModifierFlags.NSAlternateKeyMask : NSEventModifierFlags :=
  ⟨false, false, true, false⟩

def NSEventModifierFlags.NSCommandKeyMask : NSEventModifierFlags :=
  ⟨false, false, false, true⟩

/-- Bitmask containment on the native flags. -/
def NSEventModifierFlags.contains (f g : NSEventModifierFlags) : Bool :=
  (!g.shiftKey || f.shiftKey) && (!g.controlKey || f.controlKey) &&
  (!g.alternateKey || f.alternateKey) && (!g.commandKey || f.commandKey)

/-- The two fields of a native `NSEvent` that the embedded code reads:
`modifierFlags` and `keyCode` (the hardware scancode, a `u16`). -/
structure NSEventModel where
  modifierFlags : NSEventModifierFlags
  keyCode : Nat
deriving DecidableEq, Repr

/-- `get_scancode`: read the native event's `keyCode` field. -/
def get_scancode (event : NSEventModel) : Nat :=
  event.keyCode

/-- `event_mods`: translate the native modifier flags into winit's
`ModifiersState`, one `set` call per flag, exactly as the source. -/
def event_mods (event : NSEventModel) : ModifiersState :=
  let flags := event.modifierFlags
  ((((ModifiersState.empty).set ModifiersState.SHIFT
      (flags.contains NSEventModifierFlags.NSShiftKeyMask)).set
    ModifiersState.CTRL
      (flags.contains NSEventModifierFlags.NSControlKeyMask)).set
    ModifiersState.ALT
      (flags.contains NSEventModifierFlags.NSAlternateKeyMask)).set
    ModifiersState.LOGO
      (flags.contains NSEventModifierFlags.NSCommandKeyMask)

inductive ElementState where
  | Pressed
  | Released
deriving DecidableEq, Repr

/-- winit's `KeyboardInput` payload (the `device_id` of the surrounding
`WindowEvent::KeyboardInput` is a process-wide constant and carried in
`KeyboardInputEvent` below). -/
structure KeyboardInput where
  state : ElementState
  scancode : Nat
  virtual_keycode : Option VirtualKeyCode
  modifiers : ModifiersState
deriving DecidableEq, Repr

/-- The `WindowEvent::KeyboardInput` variant that `modifier_event`
produces. -/
structure KeyboardInputEvent where
  device_id : Unit
  input : KeyboardInput
  is_synthetic : Bool
deriving DecidableEq, Repr

def DEVICE_ID : Unit := ()

/-- `modifier_event`: the modifier transition detector.  Reads the native
event's modifier flags twice, exactly as the source's two
`NSEvent::modifierFlags(ns_event).contains(keymask)` calls (the model is
pure, so both reads see the same flags). -/
def modifier_event (ns_event : NSEventModel) (keymask : NSEventModifierFlags)
    (was_key_pressed : Bool) : Option KeyboardInputEvent :=
  if (!was_key_pressed && ns_event.modifierFlags.contains keymask)
      || (was_key_pressed && !(ns_event.modifierFlags.contains keymask)) then
    let state := if was_key_pressed then ElementState.Released
      else ElementState.Pressed
    let scancode := get_scancode ns_event
    let virtual_keycode := scancode_to_keycode scancode
    some { device_id := DEVICE_ID,
           input := { state := state, scancode := scancode,
                      virtual_keycode := virtual_keycode,
                      modifiers := event_mods ns_event },
           is_synthetic := false }
  else
    none

/-- The 26 letter keys, used to single out the punctuation/digit part of the
character tables. -/
def letterKeys : List VirtualKeyCode :=
  [ VirtualKeyCode.A, VirtualKeyCode.B, VirtualKeyCode.C, VirtualKeyCode.D,
    VirtualKeyCode.E, VirtualKeyCode.F, VirtualKeyCode.G, VirtualKeyCode.H,
    VirtualKeyCode.I, VirtualKeyCode.J, VirtualKeyCode.K, VirtualKeyCode.L,
    VirtualKeyCode.M, VirtualKeyCode.N, VirtualKeyCode.O, VirtualKeyCode.P,
    VirtualKeyCode.Q, VirtualKeyCode.R, VirtualKeyCode.S, VirtualKeyCode.T,
    VirtualKeyCode.U, VirtualKeyCode.V, VirtualKeyCode.W, VirtualKeyCode.X,
    VirtualKeyCode.Y, VirtualKeyCode.Z ]

/-- The punctuation/digit rows of `keycode_to_char`:
(key, unshifted glyph, shifted glyph). -/
def punctDigitPairs : List (VirtualKeyCode × Char × Char) :=
  [ (VirtualKeyCode.Key1, '1', '!'), (VirtualKeyCode.Key2, '2', '@'),
    (VirtualKeyCode.Key3, '3', '#'), (VirtualKeyCode.Key4, '4', '$'),
    (VirtualKeyCode.Key5, '5', '%'), (VirtualKeyCode.Key6, '6', '^'),
    (VirtualKeyCode.Key7, '7', '&'), (VirtualKeyCode.Key8, '8', '*'),
    (VirtualKeyCode.Key9, '9', '('), (VirtualKeyCode.Key0, '0', ')'),
    (VirtualKeyCode.Equals, '=', '+'), (VirtualKeyCode.Minus, '-', '_'),
    (VirtualKeyCode.RBracket, ']', Char.ofNat 0x7d),
    (VirtualKeyCode.LBracket, '[', Char.ofNat 0x7b),
    (VirtualKeyCode.Apostrophe, Char.ofNat 0x27, Char.ofNat 0x22),
    (VirtualKeyCode.Semicolon, ';', ':'),
    (VirtualKeyCode.Backslash, '\\', '|'), (VirtualKeyCode.Comma, ',', '<'),
    (VirtualKeyCode.Slash, '/', '?'), (VirtualKeyCode.Period, '.', '>'),
    (VirtualKeyCode.Grave, Char.ofNat 0x60, '~') ]

/-- C1: for every virtual key identity `k` with a character mapping and each
shift state `s`, `char_to_keycode` applied to the character returned by
`keycode_to_char k s` returns `some k` — the two character tables are
mutually inverse over their shared domain. -/
theorem keycode_char_inverse :
    ∀ (k : VirtualKeyCode) (s : Bool),
      (keycode_to_char k ⟨s, false, false, false⟩).isSome = true →
      (keycode_to_char k ⟨s, false, false, false⟩).bind char_to_keycode
        = some k := by
  decide

/-- Witness for C1 at `Key1` in the shifted state. -/
theorem keycode_char_inverse_witness :
    (keycode_to_char VirtualKeyCode.Key1 ⟨true, false, false, false⟩).bind
      char_to_keycode = some VirtualKeyCode.Key1 :=
  keycode_char_inverse VirtualKeyCode.Key1 true (by decide)

/-- C10: `keycode_to_char` depends on the modifier state only through the
SHIFT flag — two modifier states agreeing on SHIFT yield the same result for
every key, whatever their CTRL, ALT and LOGO bits. -/
theorem keycode_to_char_shift_only (k : VirtualKeyCode)
    (m1 m2 : ModifiersState) (h : m1.shift = m2.shift) :
    keycode_to_char k m1 = keycode_to_char k m2 := by
  have hc : m1.contains ModifiersState.SHIFT
      = m2.contains ModifiersState.SHIFT := by
    simp [ModifiersState.contains, ModifiersState.SHIFT, h]
  unfold keycode_to_char
  rw [hc]

/-- Witness for C10: SHIFT alone versus all four flags set. -/
theorem keycode_to_char_shift_only_witness :
    keycode_to_char VirtualKeyCode.A ⟨true, false, false, false⟩
      = keycode_to_char VirtualKeyCode.A ⟨true, true, true, true⟩ :=
  keycode_to_char_shift_only VirtualKeyCode.A ⟨true, false, false, false⟩
    ⟨true, true, true, true⟩ rfl

/-- C6 (counterexample to the stated count): the set of virtual key
identities that have a character mapping and are not letter keys — the
mapped punctuation/digit keys — has exactly 21 elements, not 34 as the claim
states. -/
theorem punct_digit_key_count :
    ((Finset.univ : Finset VirtualKeyCode).filter (fun k =>
        (keycode_to_char k ModifiersState.empty).isSome = true
          ∧ k ∉ letterKeys)).card = 21
    ∧ ¬ ((Finset.univ : Finset VirtualKeyCode).filter (fun k =>
        (keycode_to_char k ModifiersState.empty).isSome = true
          ∧ k ∉ letterKeys)).card = 34 := by
  decide

/-- C6 (amended to the 21 mapped punctuation/digit keys): for each of the 21
punctuation/digit rows, `keycode_to_char` returns the row's unshifted glyph
under unshifted modifiers and its shifted glyph under SHIFT; in particular
`Key1` yields '1' and '!'. -/
theorem keycode_char_shift_pairs :
    ∀ p ∈ punctDigitPairs,
      keycode_to_char p.1 ModifiersState.empty = some p.2.1
        ∧ keycode_to_char p.1 ModifiersState.SHIFT = some p.2.2 := by
  decide

/-- Witness for C6 at `Key1`: '1' unshifted and '!' shifted. -/
theorem keycode_char_shift_pairs_witness :
    keycode_to_char VirtualKeyCode.Key1 ModifiersState.empty = some '1'
      ∧ keycode_to_char VirtualKeyCode.Key1 ModifiersState.SHIFT = some '!' :=
  keycode_char_shift_pairs (VirtualKeyCode.Key1, '1', '!') (by decide)

/-- C7: the scancode table maps the designated code 0x0A to the
non-alphanumeric caret key. -/
theorem scancode_caret :
    scancode_to_keycode 0x0a = some VirtualKeyCode.Caret := by
  decide

/-- C8: each row of the character table sends both of its glyphs (the
unshifted and the shifted one) to the same virtual key identity, and every
character that appears in no row maps to `none`. -/
theorem char_to_keycode_pairs :
    (∀ e ∈ charTable,
        char_to_keycode e.1 = some e.2.2 ∧ char_to_keycode e.2.1 = some e.2.2)
    ∧ (∀ c : Char, c ∉ charTable.map (fun e => e.1) →
        c ∉ charTable.map (fun e => e.2.1) → char_to_keycode c = none) := by
  constructor
  · decide
  · intro c h1 h2
    unfold char_to_keycode
    have hfind : charTable.find? (fun e => c == e.1 || c == e.2.1) = none := by
      rw [List.find?_eq_none]
      intro e he
      simp only [Bool.or_eq_true, beq_iff_eq, not_or]
      constructor
      · intro hc
        exact h1 (List.mem_map.mpr ⟨e, he, hc.symm⟩)
      · intro hc
        exact h2 (List.mem_map.mpr ⟨e, he, hc.symm⟩)
    rw [hfind]
    rfl

/-- Witness for C8: both glyphs of the `a`-row map to `A`, and the euro sign,
outside the table, maps to `none`. -/
theorem char_to_keycode_pairs_witness :
    (char_to_keycode 'a' = some VirtualKeyCode.A
      ∧ char_to_keycode 'A' = some VirtualKeyCode.A)
    ∧ char_to_keycode '€' = none :=
  ⟨char_to_keycode_pairs.1 ('a', 'A', VirtualKeyCode.A) (by decide),
   char_to_keycode_pairs.2 '€' (by decide) (by decide)⟩

set_option maxRecDepth 8192

/-- C4: `scancode_to_keycode` is a deterministic total function — every
scancode listed in the table returns exactly the key of its row, and every
scancode outside the known set (in particular every one outside the `u16`
range) returns `none`. -/
theorem scancode_to_keycode_total :
    (∀ p ∈ scancodeTable, scancode_to_keycode p.1 = some p.2)
    ∧ (∀ s : Nat, s ∉ knownScancodes → scancode_to_keycode s = none) := by
  constructor
  · decide
  · intro s hs
    unfold scancode_to_keycode
    have hfind : scancodeTable.find? (fun e => e.1 == s) = none := by
      rw [List.find?_eq_none]
      intro e he
      simp only [beq_iff_eq]
      intro hc
      exact hs (hc ▸ List.mem_map.mpr ⟨e, he, rfl⟩)
    rw [hfind]
    rfl

/-- Witness for C4: the in-table scancode 0x00 resolves to `A`, the reserved
code 0x34 and the out-of-range code 0x10000 resolve to `none`. -/
theorem scancode_to_keycode_total_witness :
    scancode_to_keycode 0x00 = some VirtualKeyCode.A
      ∧ scancode_to_keycode 0x34 = none
      ∧ scancode_to_keycode 0x10000 = none :=
  ⟨scancode_to_keycode_total.1 (0x00, VirtualKeyCode.A) (by decide),
   scancode_to_keycode_total.2 0x34 (by decide),
   scancode_to_keycode_total.2 0x10000 (by decide)⟩

/-- C5: `check_function_keys` inspects only the first UTF-16 code unit of
its argument — any string whose first code unit is one of the four
private-use code points 0xf718–0xf71b decodes to the corresponding key
among F21–F24, whatever follows (in particular the one-character string
U+F718 gives F21), and any string whose first code unit is none of the
four — for example `"a"` — gives `none`. -/
theorem check_function_keys_spec :
    (∀ (s : String), ∀ u ∈ functionKeyTable,
        (encode_utf16 s).head? = some u.1 → check_function_keys s = some u.2)
    ∧ check_function_keys "" = some VirtualKeyCode.F21
    ∧ check_function_keys "" = some VirtualKeyCode.F22
    ∧ check_function_keys "" = some VirtualKeyCode.F23
    ∧ check_function_keys "" = some VirtualKeyCode.F24
    ∧ check_function_keys "a" = none
    ∧ (∀ s : String,
        (∀ u ∈ functionKeyTable, (encode_utf16 s).head? ≠ some u.1) →
        check_function_keys s = none) := by
  refine ⟨?_, by decide, by decide, by decide, by decide, by decide, ?_⟩
  · intro s u hu hh
    simp only [functionKeyTable, List.mem_cons, List.not_mem_nil, or_false]
      at hu
    rcases hu with h | h | h | h <;> subst h <;>
      · unfold check_function_keys
        rw [hh]
        rfl
  intro s h
  unfold check_function_keys
  cases hh : (encode_utf16 s).head? with
  | none => rfl
  | some ch =>
    have hfind : functionKeyTable.find? (fun e => e.1 == ch) = none := by
      rw [List.find?_eq_none]
      intro u hu
      simp only [beq_iff_eq]
      intro hc
      exact h u hu (hh.trans (congrArg some hc.symm))
    show ((functionKeyTable.find? (fun e => e.1 == ch)).map (fun e => e.2))
      = none
    rw [hfind]
    rfl

/-- Witness for C5: a two-character string starting with U+F718 decodes to
F21 despite the trailing content, and a string starting with an ordinary
letter decodes to `none`. -/
theorem check_function_keys_spec_witness :
    check_function_keys "x" = some VirtualKeyCode.F21
      ∧ check_function_keys "xyz" = none :=
  ⟨check_function_keys_spec.1 "x" (0xf718, VirtualKeyCode.F21)
      (by decide) (by decide),
   check_function_keys_spec.2.2.2.2.2.2 "xyz" (by decide)⟩

/-- C9: on the empty string there is no first UTF-16 code unit at all, and
`check_function_keys` falls through to `none`. -/
theorem check_function_keys_empty :
    check_function_keys "" = none := by
  decide

/-- C2: the modifier transition detector fires in exactly two situations —
key remembered as released while the watched flag is now set (a press), and
key remembered as pressed while the watched flag is now clear (a release);
every other combination yields `none`. -/
theorem modifier_event_transition (e : NSEventModel)
    (keymask : NSEventModifierFlags) (wp : Bool) :
    ((wp = false ∧ e.modifierFlags.contains keymask = true) →
       ∃ ev, modifier_event e keymask wp = some ev
         ∧ ev.input.state = ElementState.Pressed)
    ∧ ((wp = true ∧ e.modifierFlags.contains keymask = false) →
       ∃ ev, modifier_event e keymask wp = some ev
         ∧ ev.input.state = ElementState.Released)
    ∧ (¬ ((wp = false ∧ e.modifierFlags.contains keymask = true)
          ∨ (wp = true ∧ e.modifierFlags.contains keymask = false)) →
       modifier_event e keymask wp = none) := by
  cases wp <;> cases h : e.modifierFlags.contains keymask <;>
    simp [modifier_event, h]

/-- Witness for C2: SHIFT newly appearing in the flags while remembered as
released synthesizes a press. -/
theorem modifier_event_transition_witness :
    ∃ ev, modifier_event ⟨⟨true, false, false, false⟩, 0x38⟩
        NSEventModifierFlags.NSShiftKeyMask false = some ev
      ∧ ev.input.state = ElementState.Pressed :=
  (modifier_event_transition ⟨⟨true, false, false, false⟩, 0x38⟩
    NSEventModifierFlags.NSShiftKeyMask false).1 ⟨rfl, by decide⟩

/-- C3: whenever the detector fires, the synthesized event carries the
current native event's scancode, the scancode-table lookup of that scancode
as its virtual keycode, the current modifier flags, and a
false synthetic marker. -/
theorem modifier_event_payload (e : NSEventModel)
    (keymask : NSEventModifierFlags) (wp : Bool) (ev : KeyboardInputEvent)
    (h : modifier_event e keymask wp = some ev) :
    ev.input.scancode = get_scancode e
    ∧ ev.input.virtual_keycode = scancode_to_keycode (get_scancode e)
    ∧ ev.input.modifiers = event_mods e
    ∧ ev.is_synthetic = false := by
  unfold modifier_event at h
  split at h
  · have he := Option.some.inj h
    subst he
    exact ⟨rfl, rfl, rfl, rfl⟩
  · exact Option.noConfusion h

/-- Witness for C3 at a concrete shift press: scancode 0x38, virtual keycode
`LShift`, modifiers with SHIFT set, synthetic marker false. -/
theorem modifier_event_payload_witness :
    (⟨(), ⟨ElementState.Pressed, 0x38, some VirtualKeyCode.LShift,
        ⟨true, false, false, false⟩⟩, false⟩
      : KeyboardInputEvent).input.scancode
        = get_scancode ⟨⟨true, false, false, false⟩, 0x38⟩
    ∧ (⟨(), ⟨ElementState.Pressed, 0x38, some VirtualKeyCode.LShift,
        ⟨true, false, false, false⟩⟩, false⟩
      : KeyboardInputEvent).input.virtual_keycode
        = scancode_to_keycode
            (get_scancode ⟨⟨true, false, false, false⟩, 0x38⟩)
    ∧ (⟨(), ⟨ElementState.Pressed, 0x38, some VirtualKeyCode.LShift,
        ⟨true, false, false, false⟩⟩, false⟩
      : KeyboardInputEvent).input.modifiers
        = event_mods ⟨⟨true, false, false, false⟩, 0x38⟩
    ∧ (⟨(), ⟨ElementState.Pressed, 0x38, some VirtualKeyCode.LShift,
        ⟨true, false, false, false⟩⟩, false⟩
      : KeyboardInputEvent).is_synthetic = false :=
  modifier_event_payload ⟨⟨true, false, false, false⟩, 0x38⟩
    NSEventModifierFlags.NSShiftKeyMask false _ (by decide)
